import Mathlib

/-!
Shallow embedding of the Ledger Engine of `src/src/pages_index.tsx`:
the Order/Client data model, the save/add/remove handlers, the
financial calculator (`calculateBalance`, `totalUnpaidAmount`) and the
invoice assembly of `generateInvoicePdf`, followed by theorems checking
the specification's claims against those definitions.

Strings are modelled as lists of characters (`Str`), so that the
JavaScript string operations used by the source (`===`, `startsWith`,
`trim`, `toLowerCase`, falsiness of the empty string) become executable
list functions.  JavaScript numbers are modelled as rationals: the
source only compares prices with `<= 0` and adds them, and no claim
depends on floating-point rounding.  The wall-clock values the source
reads (`Date.now().toString()` used as a fresh id, today's date used to
reset the order form) are passed to the handlers as explicit `now` /
`today` parameters.
-/

/-- A JavaScript string, modelled as its list of characters. -/
abbrev Str := List Char

/-- Model of `s.startsWith(pre)` from the source: plain prefix test. -/
def strStartsWith (s pre : Str) : Bool :=
  List.isPrefixOf pre s

/-- Model of `s.toLowerCase()` from the source (ASCII lowering). -/
def strToLower (s : Str) : Str :=
  s.map Char.toLower

/-- Model of `s.trim()` from the source: strip whitespace at both ends. -/
def strTrim (s : Str) : Str :=
  ((s.dropWhile Char.isWhitespace).reverse.dropWhile Char.isWhitespace).reverse

/-- The `PaymentMethod` union type of the source. -/
inductive PaymentMethod where
  | Cash
  | Postpaid
  deriving DecidableEq, Repr

/-- The `Order` interface of the source. -/
structure Order where
  id : Str
  date : Str
  vehicle : Str
  clientName : Str
  orderType : Str
  location : Str
  cost : ℚ
  price : ℚ
  paymentMethod : PaymentMethod
  paid : Bool
  deriving DecidableEq, Repr

/-- The `Client` interface of the source. -/
structure Client where
  id : Str
  name : Str
  deriving DecidableEq, Repr

/-- The order form draft: `Omit<Order, 'id' | 'paid'>` in the source. -/
structure OrderDraft where
  date : Str
  vehicle : Str
  clientName : Str
  orderType : Str
  location : Str
  cost : ℚ
  price : ℚ
  paymentMethod : PaymentMethod
  deriving DecidableEq, Repr

/-- The `predefinedClients` seed list of the source. -/
def predefinedClients : List Client :=
  [{ id := "1".data, name := "Hassan Bobo".data },
   { id := "2".data, name := "Omar Shareif".data },
   { id := "3".data, name := "Muhi Aldein".data },
   { id := "4".data, name := "Khalifa Shareif".data },
   { id := "5".data, name := "Mutwali".data }]

/-- The `defaultNewOrderState` draft of the source; `today` stands for
`new Date().toISOString().split('T')[0]`. -/
def defaultNewOrderState (today : Str) : OrderDraft :=
  { date := today
    vehicle := []
    clientName := ((predefinedClients.head?).map Client.name).getD []
    orderType := []
    location := []
    cost := 0
    price := 0
    paymentMethod := PaymentMethod.Cash }

/-- The React state of the component that the claims touch: the orders
and clients collections, the order form draft, the client form input
and the invoice selection. -/
structure AppState where
  orders : List Order
  clients : List Client
  newOrder : OrderDraft
  orderPaid : Bool
  editingOrderId : Option Str
  newClientName : Str
  showAddClientInput : Bool
  selectedClientForInvoice : Str
  selectedMonthForInvoice : Str
  deriving DecidableEq, Repr

/-- The rejection reported by `handleSaveOrder` through `alert`. -/
inductive SaveOrderError where
  | validationError
  deriving DecidableEq, Repr

/-- The rejections reported by `handleAddClient` through `alert`. -/
inductive AddClientError where
  | emptyName
  | duplicateName
  deriving DecidableEq, Repr

/-- The rejections reported by `generateInvoicePdf` through `alert`. -/
inductive InvoiceError where
  | noSelection
  | noData
  deriving DecidableEq, Repr

/-- The record built by `{ ...newOrder, id, paid }` in the source. -/
def orderFromDraft (d : OrderDraft) (id : Str) (paid : Bool) : Order :=
  { id := id
    date := d.date
    vehicle := d.vehicle
    clientName := d.clientName
    orderType := d.orderType
    location := d.location
    cost := d.cost
    price := d.price
    paymentMethod := d.paymentMethod
    paid := paid }

/-- The guard of `handleSaveOrder`:
`!newOrder.date || !newOrder.clientName || !newOrder.vehicle || newOrder.price <= 0`. -/
def orderIsInvalid (d : OrderDraft) : Bool :=
  d.date.isEmpty || d.clientName.isEmpty || d.vehicle.isEmpty || decide (d.price ≤ 0)

/-- The `handleSaveOrder` handler.  `today` models the date used to
reset the form, `now` models `Date.now().toString()`.  The returned
option reports the validation `alert`. -/
def handleSaveOrder (today now : Str) (s : AppState) : AppState × Option SaveOrderError :=
  if orderIsInvalid s.newOrder then (s, some SaveOrderError.validationError)
  else
    match s.editingOrderId with
    | some eid =>
        ({ s with
            orders := s.orders.map fun o =>
              if o.id == eid then orderFromDraft s.newOrder eid s.orderPaid else o
            editingOrderId := none
            newOrder := defaultNewOrderState today
            orderPaid := true }, none)
    | none =>
        ({ s with
            orders := s.orders ++ [orderFromDraft s.newOrder now s.orderPaid]
            newOrder := defaultNewOrderState today
            orderPaid := true }, none)

/-- The `handleAddClient` handler; `now` models `Date.now().toString()`. -/
def handleAddClient (now : Str) (s : AppState) : AppState × Option AddClientError :=
  let trimmed := strTrim s.newClientName
  if trimmed.isEmpty then (s, some AddClientError.emptyName)
  else if s.clients.any fun c => strToLower c.name == strToLower trimmed then
    (s, some AddClientError.duplicateName)
  else
    let clientToAdd : Client := { id := now, name := trimmed }
    ({ s with
        clients := s.clients ++ [clientToAdd]
        selectedClientForInvoice :=
          if s.clients.isEmpty || s.selectedClientForInvoice.isEmpty then clientToAdd.name
          else s.selectedClientForInvoice
        newOrder := { s.newOrder with clientName := clientToAdd.name }
        newClientName := []
        showAddClientInput := false }, none)

/-- The `handleRemoveClient` handler (with the `confirm` dialog answered
yes; answering no is the identity). -/
def handleRemoveClient (id : Str) (s : AppState) : AppState :=
  let removedName := (s.clients.find? fun c => c.id == id).map Client.name
  let updatedClients := s.clients.filter fun c => c.id != id
  { s with
    clients := updatedClients
    selectedClientForInvoice :=
      if some s.selectedClientForInvoice == removedName then
        ((updatedClients.head?).map Client.name).getD []
      else s.selectedClientForInvoice
    newOrder :=
      if some s.newOrder.clientName == removedName then
        { s.newOrder with clientName := ((updatedClients.head?).map Client.name).getD [] }
      else s.newOrder }

/-- The `calculateBalance` pure function of the source. -/
def calculateBalance (order : Order) : ℚ :=
  if order.paymentMethod == PaymentMethod.Postpaid && !order.paid then order.price else 0

/-- The client-and-month filter used by the invoice table body and by
`generateInvoicePdf`. -/
def invoiceFilter (client month : Str) (order : Order) : Bool :=
  order.clientName == client && strStartsWith order.date month

/-- The filter of the `totalUnpaidAmount` computation. -/
def unpaidFilter (client month : Str) (order : Order) : Bool :=
  order.clientName == client && strStartsWith order.date month &&
    order.paymentMethod == PaymentMethod.Postpaid && !order.paid

/-- The `totalUnpaidAmount` computation of the source, parametrised by
the orders collection and the invoice selection it reads. -/
def totalUnpaidAmount (orders : List Order) (client month : Str) : ℚ :=
  (orders.filter (unpaidFilter client month)).foldl (fun sum order => sum + order.price) 0

/-- One row of the invoice table: the order and its computed balance. -/
structure InvoiceLine where
  order : Order
  balance : ℚ
  deriving DecidableEq, Repr

/-- The derived invoice value: the data the hidden invoice table renders. -/
structure Invoice where
  client : Str
  month : Str
  lineItems : List InvoiceLine
  totalUnpaid : ℚ
  deriving DecidableEq, Repr

/-- The `generateInvoicePdf` handler: the precondition checks and the
data of the document it renders.  The handler mutates no collection, so
the state is returned unchanged alongside the result. -/
def generateInvoicePdf (s : AppState) : Except InvoiceError Invoice × AppState :=
  if s.selectedClientForInvoice.isEmpty || s.selectedMonthForInvoice.isEmpty then
    (Except.error InvoiceError.noSelection, s)
  else
    let filteredOrders :=
      s.orders.filter (invoiceFilter s.selectedClientForInvoice s.selectedMonthForInvoice)
    if filteredOrders.isEmpty then (Except.error InvoiceError.noData, s)
    else
      (Except.ok
        { client := s.selectedClientForInvoice
          month := s.selectedMonthForInvoice
          lineItems := filteredOrders.map fun o => { order := o, balance := calculateBalance o }
          totalUnpaid :=
            totalUnpaidAmount s.orders s.selectedClientForInvoice s.selectedMonthForInvoice },
       s)

/-- The unpaid total as the specification words it: the sum of `price`
over the orders of the client whose date starts with the month prefix,
paid by Postpaid and not yet paid.  Stated independently of
`totalUnpaidAmount` to compare the code against the spec. -/
def specUnpaidTotal (orders : List Order) (client month : Str) : ℚ :=
  ((orders.filter fun o =>
      decide (o.clientName = client ∧ strStartsWith o.date month = true ∧
        o.paymentMethod = PaymentMethod.Postpaid ∧ o.paid = false)).map Order.price).sum

theorem foldl_add_price_eq_sum (l : List Order) (r : ℚ) :
    l.foldl (fun sum o => sum + o.price) r = r + (l.map Order.price).sum := by
  induction l generalizing r with
  | nil => simp
  | cons o t ih => simp [ih, add_assoc]

theorem totalUnpaidAmount_eq_sum_map (orders : List Order) (client month : Str) :
    totalUnpaidAmount orders client month =
      ((orders.filter (unpaidFilter client month)).map Order.price).sum := by
  rw [totalUnpaidAmount, foldl_add_price_eq_sum, zero_add]

theorem unpaidFilter_eq_and (client month : Str) (o : Order) :
    unpaidFilter client month o =
      (invoiceFilter client month o &&
        (o.paymentMethod == PaymentMethod.Postpaid && !o.paid)) := by
  simp [unpaidFilter, invoiceFilter, Bool.and_assoc]

/-- Claim C1: `totalUnpaidAmount orders client month` equals the sum of
`price` over exactly the orders whose `clientName` equals the client,
whose date starts with the month prefix, whose payment method is
Postpaid and whose paid flag is false, as the specification words it. -/
theorem totalUnpaidAmount_eq_specUnpaidTotal (orders : List Order) (client month : Str) :
    totalUnpaidAmount orders client month = specUnpaidTotal orders client month := by
  rw [totalUnpaidAmount_eq_sum_map, specUnpaidTotal]
  have h : ∀ o ∈ orders, unpaidFilter client month o =
      decide (o.clientName = client ∧ strStartsWith o.date month = true ∧
        o.paymentMethod = PaymentMethod.Postpaid ∧ o.paid = false) := by
    intro o _
    rw [Bool.eq_iff_iff]
    simp [unpaidFilter, and_assoc, Bool.and_eq_true, Bool.not_eq_true']
  rw [List.filter_congr h]

/-- Claim C2: `calculateBalance` returns `price` on Postpaid-and-unpaid
orders and `0` otherwise; in particular it is `0` on every Cash order,
and (given the data-model invariant `0 < price`) it equals `price`
exactly on the Postpaid-and-unpaid orders. -/
theorem calculateBalance_spec (o : Order) (hp : 0 < o.price) :
    (o.paymentMethod = PaymentMethod.Postpaid ∧ o.paid = false →
      calculateBalance o = o.price) ∧
    (¬(o.paymentMethod = PaymentMethod.Postpaid ∧ o.paid = false) →
      calculateBalance o = 0) ∧
    (o.paymentMethod = PaymentMethod.Cash → calculateBalance o = 0) ∧
    (calculateBalance o = o.price ↔
      o.paymentMethod = PaymentMethod.Postpaid ∧ o.paid = false) := by
  have hne : (0 : ℚ) ≠ o.price := ne_of_lt hp
  cases hpm : o.paymentMethod <;> cases hpd : o.paid <;>
    simp [calculateBalance, hpm, hpd, hne]

def sampleOrderC2 : Order :=
  { id := "10".data
    date := "2024-05-10".data
    vehicle := "Truck A".data
    clientName := "Acme".data
    orderType := "Delivery".data
    location := "City Center".data
    cost := 40
    price := 100
    paymentMethod := PaymentMethod.Postpaid
    paid := false }

/-- Witness for claim C2 at a concrete Postpaid unpaid order. -/
theorem calculateBalance_spec_witness :
    0 < sampleOrderC2.price ∧ calculateBalance sampleOrderC2 = sampleOrderC2.price :=
  ⟨by norm_num [sampleOrderC2],
   (calculateBalance_spec sampleOrderC2 (by norm_num [sampleOrderC2])).1 ⟨rfl, rfl⟩⟩

/-- Claim C10: the literal price summation `totalUnpaidAmount` coincides
with summing `calculateBalance` over the orders passing the
client-and-month filter alone. -/
theorem totalUnpaidAmount_eq_sum_balance (orders : List Order) (client month : Str) :
    totalUnpaidAmount orders client month =
      ((orders.filter (invoiceFilter client month)).map calculateBalance).sum := by
  rw [totalUnpaidAmount_eq_sum_map]
  induction orders with
  | nil => simp
  | cons o t ih =>
      rw [List.filter_cons, List.filter_cons, unpaidFilter_eq_and]
      cases hInv : invoiceFilter client month o <;>
        cases hpc : (o.paymentMethod == PaymentMethod.Postpaid && !o.paid) <;>
          simp [calculateBalance, hpc, ih]

/-- Claim C4: a save whose draft has non-positive price or an empty
date, client name or vehicle is rejected with the validation error and
mutates nothing: the state, in particular the orders collection, is
returned exactly as it was. -/
theorem handleSaveOrder_invalid_spec (today now : Str) (s : AppState)
    (h : s.newOrder.price ≤ 0 ∨ s.newOrder.date = [] ∨
      s.newOrder.clientName = [] ∨ s.newOrder.vehicle = []) :
    handleSaveOrder today now s = (s, some SaveOrderError.validationError) ∧
    (handleSaveOrder today now s).1.orders = s.orders := by
  have hbad : orderIsInvalid s.newOrder = true := by
    rcases h with h | h | h | h <;> simp [orderIsInvalid, h]
  constructor
  · rw [handleSaveOrder, if_pos hbad]
  · rw [handleSaveOrder, if_pos hbad]

def sampleStateC4 : AppState :=
  { orders := [sampleOrderC2]
    clients := predefinedClients
    newOrder :=
      { date := "2024-05-11".data
        vehicle := "Truck B".data
        clientName := "Acme".data
        orderType := []
        location := []
        cost := 0
        price := 0
        paymentMethod := PaymentMethod.Cash }
    orderPaid := true
    editingOrderId := none
    newClientName := []
    showAddClientInput := false
    selectedClientForInvoice := "Acme".data
    selectedMonthForInvoice := "2024-05".data }

/-- Witness for claim C4 at a concrete draft with price zero. -/
theorem handleSaveOrder_invalid_spec_witness :
    sampleStateC4.newOrder.price ≤ 0 ∧
    handleSaveOrder "2024-05-11".data "77".data sampleStateC4 =
      (sampleStateC4, some SaveOrderError.validationError) :=
  ⟨by norm_num [sampleStateC4],
   (handleSaveOrder_invalid_spec "2024-05-11".data "77".data sampleStateC4
      (Or.inl (by norm_num [sampleStateC4]))).1⟩

/-- Claim C7: removing a client by id leaves the orders collection
identical and removes exactly the clients carrying that id, keeping
every other client in order. -/
theorem handleRemoveClient_spec (id : Str) (s : AppState) :
    (handleRemoveClient id s).orders = s.orders ∧
    (handleRemoveClient id s).clients = s.clients.filter (fun c => c.id != id) := by
  constructor <;> rfl

/-- Claim C3: a validated save with an editing id in hand rewrites the
orders pointwise, replacing the record at each position whose id
matches and leaving every other position and the length unchanged;
without an editing id it appends the new record built from the draft at
the end, and its id is the supplied fresh token, distinct from every
existing id whenever the token is. -/
theorem handleSaveOrder_valid_spec (today now : Str) (s : AppState)
    (hvalid : orderIsInvalid s.newOrder = false) :
    ((handleSaveOrder today now s).2 = none) ∧
    (∀ eid, s.editingOrderId = some eid →
      (handleSaveOrder today now s).1.orders.length = s.orders.length ∧
      ∀ i, (handleSaveOrder today now s).1.orders.get? i =
        (s.orders.get? i).map fun o =>
          if o.id == eid then orderFromDraft s.newOrder eid s.orderPaid else o) ∧
    (s.editingOrderId = none →
      (handleSaveOrder today now s).1.orders =
        s.orders ++ [orderFromDraft s.newOrder now s.orderPaid] ∧
      (now ∉ s.orders.map Order.id →
        ∀ o ∈ s.orders, o.id ≠ (orderFromDraft s.newOrder now s.orderPaid).id)) := by
  refine ⟨?_, ?_, ?_⟩
  · cases he : s.editingOrderId <;> simp [handleSaveOrder, hvalid, he]
  · intro eid heid
    refine ⟨?_, ?_⟩
    · simp [handleSaveOrder, hvalid, heid]
    · intro i
      simp [handleSaveOrder, hvalid, heid, List.get?_map]
  · intro heid
    refine ⟨by simp [handleSaveOrder, hvalid, heid], ?_⟩
    intro hfresh o ho hEq
    apply hfresh
    have hid : (orderFromDraft s.newOrder now s.orderPaid).id = now := rfl
    rw [hid] at hEq
    rw [← hEq]
    exact List.mem_map_of_mem Order.id ho

def sampleOrderC3 : Order :=
  { id := "20".data
    date := "2024-05-12".data
    vehicle := "Truck B".data
    clientName := "Acme".data
    orderType := []
    location := []
    cost := 10
    price := 60
    paymentMethod := PaymentMethod.Cash
    paid := true }

def sampleStateC3 : AppState :=
  { orders := [sampleOrderC2, sampleOrderC3]
    clients := predefinedClients
    newOrder :=
      { date := "2024-05-13".data
        vehicle := "Truck C".data
        clientName := "Acme".data
        orderType := []
        location := []
        cost := 5
        price := 80
        paymentMethod := PaymentMethod.Postpaid }
    orderPaid := false
    editingOrderId := some "20".data
    newClientName := []
    showAddClientInput := false
    selectedClientForInvoice := "Acme".data
    selectedMonthForInvoice := "2024-05".data }

/-- Witness for claim C3: editing the second of two stored orders keeps
the length and rewrites position one in place. -/
theorem handleSaveOrder_valid_spec_witness :
    orderIsInvalid sampleStateC3.newOrder = false ∧
    (handleSaveOrder "2024-05-13".data "88".data sampleStateC3).1.orders.length =
      sampleStateC3.orders.length ∧
    (handleSaveOrder "2024-05-13".data "88".data sampleStateC3).1.orders.get? 1 =
      some (orderFromDraft sampleStateC3.newOrder "20".data false) := by
  have h := handleSaveOrder_valid_spec "2024-05-13".data "88".data sampleStateC3 (by decide)
  have h2 := (h.2.1 "20".data rfl).2 1
  refine ⟨by decide, (h.2.1 "20".data rfl).1, ?_⟩
  rw [h2]
  decide

/-- Claim C5: a successfully assembled invoice's line items are exactly
the orders whose client name equals the selected client and whose date
starts with the selected month string (plain prefix match), taken in
their original insertion order: the projected order list is literally
the filter of the collection, hence a sublist of it. -/
theorem generateInvoicePdf_filter_spec (s : AppState) (inv : Invoice)
    (h : (generateInvoicePdf s).1 = Except.ok inv) :
    inv.lineItems.map InvoiceLine.order =
      s.orders.filter (invoiceFilter s.selectedClientForInvoice s.selectedMonthForInvoice) ∧
    List.Sublist (inv.lineItems.map InvoiceLine.order) s.orders ∧
    (∀ o, o ∈ inv.lineItems.map InvoiceLine.order ↔
      (o ∈ s.orders ∧ o.clientName = s.selectedClientForInvoice ∧
        strStartsWith o.date s.selectedMonthForInvoice = true)) := by
  rw [generateInvoicePdf] at h
  by_cases h1 :
      (s.selectedClientForInvoice.isEmpty || s.selectedMonthForInvoice.isEmpty) = true
  · rw [if_pos h1] at h
    simp at h
  · rw [if_neg h1] at h
    by_cases h2 :
        (s.orders.filter
          (invoiceFilter s.selectedClientForInvoice s.selectedMonthForInvoice)).isEmpty = true
    · rw [if_pos h2] at h
      simp at h
    · rw [if_neg h2] at h
      simp only [Prod.fst, Except.ok.injEq] at h
      have hmap : inv.lineItems.map InvoiceLine.order =
          s.orders.filter
            (invoiceFilter s.selectedClientForInvoice s.selectedMonthForInvoice) := by
        rw [← h]
        simp only [List.map_map]
        have hco : (InvoiceLine.order ∘ fun o =>
            ({ order := o, balance := calculateBalance o } : InvoiceLine)) = id := rfl
        rw [hco, List.map_id]
      refine ⟨hmap, ?_, ?_⟩
      · rw [hmap]
        exact List.filter_sublist s.orders
      · intro o
        rw [hmap, List.mem_filter]
        simp [invoiceFilter]

def sampleOrderC5a : Order :=
  { id := "30".data
    date := "2024-05-10".data
    vehicle := "Truck A".data
    clientName := "Acme".data
    orderType := []
    location := []
    cost := 20
    price := 70
    paymentMethod := PaymentMethod.Cash
    paid := false }

def sampleOrderC5b : Order :=
  { id := "31".data
    date := "2024-05-20".data
    vehicle := "Truck B".data
    clientName := "Acme".data
    orderType := []
    location := []
    cost := 20
    price := 50
    paymentMethod := PaymentMethod.Cash
    paid := true }

def sampleStateC5 : AppState :=
  { orders := [sampleOrderC5a, sampleOrderC5b]
    clients := predefinedClients
    newOrder := defaultNewOrderState "2024-05-21".data
    orderPaid := true
    editingOrderId := none
    newClientName := []
    showAddClientInput := false
    selectedClientForInvoice := "Acme".data
    selectedMonthForInvoice := "2024-05".data }

def sampleInvoiceC5 : Invoice :=
  { client := "Acme".data
    month := "2024-05".data
    lineItems :=
      [{ order := sampleOrderC5a, balance := 0 }, { order := sampleOrderC5b, balance := 0 }]
    totalUnpaid := 0 }

/-- Witness for claim C5: the two May orders of the sample state both
appear, in insertion order. -/
theorem generateInvoicePdf_filter_spec_witness :
    (generateInvoicePdf sampleStateC5).1 = Except.ok sampleInvoiceC5 ∧
    sampleInvoiceC5.lineItems.map InvoiceLine.order =
      sampleStateC5.orders.filter
        (invoiceFilter sampleStateC5.selectedClientForInvoice
          sampleStateC5.selectedMonthForInvoice) :=
  ⟨rfl, (generateInvoicePdf_filter_spec sampleStateC5 sampleInvoiceC5 rfl).1⟩

/-- Claim C6: invoice generation reports an error exactly when the
selected client or month is empty or the client-and-month filter leaves
no order, and the state it hands back is the unchanged input state. -/
theorem generateInvoicePdf_error_spec (s : AppState) :
    ((generateInvoicePdf s).2 = s) ∧
    ((∃ e, (generateInvoicePdf s).1 = Except.error e) ↔
      (s.selectedClientForInvoice = [] ∨ s.selectedMonthForInvoice = [] ∨
        s.orders.filter
          (invoiceFilter s.selectedClientForInvoice s.selectedMonthForInvoice) = [])) := by
  by_cases h1 :
      (s.selectedClientForInvoice.isEmpty || s.selectedMonthForInvoice.isEmpty) = true
  · rw [generateInvoicePdf, if_pos h1]
    have h1i : s.selectedClientForInvoice = [] ∨ s.selectedMonthForInvoice = [] := by
      simpa [List.isEmpty_iff] using h1
    exact ⟨rfl, iff_of_true ⟨InvoiceError.noSelection, rfl⟩ (h1i.imp id Or.inl)⟩
  · rw [generateInvoicePdf, if_neg h1]
    have h1i : s.selectedClientForInvoice ≠ [] ∧ s.selectedMonthForInvoice ≠ [] := by
      simpa [List.isEmpty_iff, not_or] using h1
    by_cases h2 :
        (s.orders.filter
          (invoiceFilter s.selectedClientForInvoice s.selectedMonthForInvoice)).isEmpty = true
    · rw [if_pos h2]
      have h2i :
          s.orders.filter
            (invoiceFilter s.selectedClientForInvoice s.selectedMonthForInvoice) = [] := by
        simpa [List.isEmpty_iff] using h2
      exact ⟨rfl, iff_of_true ⟨InvoiceError.noData, rfl⟩ (Or.inr (Or.inr h2i))⟩
    · rw [if_neg h2]
      have h2i :
          s.orders.filter
            (invoiceFilter s.selectedClientForInvoice s.selectedMonthForInvoice) ≠ [] := by
        simpa [List.isEmpty_iff] using h2
      refine ⟨rfl, iff_of_false ?_ ?_⟩
      · rintro ⟨e, he⟩
        exact Except.noConfusion he
      · rintro (hc | hm | hf)
        exacts [h1i.1 hc, h1i.2 hm, h2i hf]

/-- Claim C8: adding a client trims the typed name; an empty trimmed
name is rejected with the empty-name error and a case-insensitive match
against an existing client with the duplicate-name error, both leaving
the state untouched; otherwise a client with the trimmed name and the
freshly generated id is appended. -/
theorem handleAddClient_spec (now : Str) (s : AppState) :
    (strTrim s.newClientName = [] →
      handleAddClient now s = (s, some AddClientError.emptyName)) ∧
    (strTrim s.newClientName ≠ [] →
      (s.clients.any fun c =>
        strToLower c.name == strToLower (strTrim s.newClientName)) = true →
      handleAddClient now s = (s, some AddClientError.duplicateName)) ∧
    (strTrim s.newClientName ≠ [] →
      (s.clients.any fun c =>
        strToLower c.name == strToLower (strTrim s.newClientName)) = false →
      (handleAddClient now s).2 = none ∧
      (handleAddClient now s).1.clients =
        s.clients ++ [{ id := now, name := strTrim s.newClientName }]) := by
  refine ⟨?_, ?_, ?_⟩
  · intro hempty
    rw [handleAddClient]
    simp [hempty]
  · intro hne hdup
    rw [handleAddClient]
    rw [if_neg (by simpa [List.isEmpty_iff] using hne)]
    simp [hdup]
  · intro hne hdup
    rw [handleAddClient]
    rw [if_neg (by simpa [List.isEmpty_iff] using hne)]
    simp [hdup]

def sampleStateC8 : AppState :=
  { orders := []
    clients := [{ id := "1".data, name := "omar".data }]
    newOrder := defaultNewOrderState "2024-05-21".data
    orderPaid := true
    editingOrderId := none
    newClientName := " Omar ".data
    showAddClientInput := true
    selectedClientForInvoice := "omar".data
    selectedMonthForInvoice := "2024-05".data }

/-- Witness for claim C8: adding " Omar " while "omar" exists fails
with the duplicate-name error and changes nothing. -/
theorem handleAddClient_spec_witness :
    strTrim sampleStateC8.newClientName ≠ [] ∧
    handleAddClient "9".data sampleStateC8 =
      (sampleStateC8, some AddClientError.duplicateName) :=
  ⟨by decide,
   (handleAddClient_spec "9".data sampleStateC8).2.1 (by decide) (by decide)⟩

def sampleStateC9 : AppState :=
  { orders := []
    clients := [{ id := "1".data, name := "Hassan Bobo".data }]
    newOrder :=
      { date := "2024-05-02".data
        vehicle := "Truck A".data
        clientName := "Ghost".data
        orderType := []
        location := []
        cost := 0
        price := 50
        paymentMethod := PaymentMethod.Postpaid }
    orderPaid := false
    editingOrderId := none
    newClientName := []
    showAddClientInput := false
    selectedClientForInvoice := "Hassan Bobo".data
    selectedMonthForInvoice := "2024-05".data }

/-- Counterexample to claim C9: this save succeeds and creates an order
whose client name, "Ghost", is the name of no client in the collection:
the handler checks only that the draft client name is nonempty. -/
theorem handleSaveOrder_unreferenced_clientName :
    (handleSaveOrder "2024-05-02".data "77".data sampleStateC9).2 = none ∧
    (handleSaveOrder "2024-05-02".data "77".data sampleStateC9).1.orders =
      [orderFromDraft sampleStateC9.newOrder "77".data false] ∧
    (sampleStateC9.clients.all fun c =>
      c.name != (orderFromDraft sampleStateC9.newOrder "77".data false).clientName) = true := by
  refine ⟨?_, ?_, by decide⟩ <;> rfl

/-- Claim C9 as amended: a validated save with no editing id appends an
order carrying the draft's client name verbatim; that name is nonempty,
but no check relates it to the client collection. -/
theorem handleSaveOrder_new_clientName_spec (today now : Str) (s : AppState)
    (hvalid : orderIsInvalid s.newOrder = false) (hnew : s.editingOrderId = none) :
    (handleSaveOrder today now s).2 = none ∧
    (handleSaveOrder today now s).1.orders =
      s.orders ++ [orderFromDraft s.newOrder now s.orderPaid] ∧
    (orderFromDraft s.newOrder now s.orderPaid).clientName = s.newOrder.clientName ∧
    s.newOrder.clientName ≠ [] := by
  refine ⟨?_, ?_, rfl, ?_⟩
  · simp [handleSaveOrder, hvalid, hnew]
  · simp [handleSaveOrder, hvalid, hnew]
  · intro hc
    rw [orderIsInvalid] at hvalid
    simp [hc] at hvalid

/-- Witness for the amended claim C9 at the counterexample state. -/
theorem handleSaveOrder_new_clientName_spec_witness :
    orderIsInvalid sampleStateC9.newOrder = false ∧
    (handleSaveOrder "2024-05-02".data "77".data sampleStateC9).1.orders =
      sampleStateC9.orders ++ [orderFromDraft sampleStateC9.newOrder "77".data false] :=
  ⟨by decide,
   (handleSaveOrder_new_clientName_spec "2024-05-02".data "77".data sampleStateC9
      (by decide) rfl).2.1⟩
